import Mathlib

/-!
# Gap Filler — verification of the frontend/desktop layer against its spec

The repository's frontend (`frontend/js/app.js`), Electron main process
(`desktop/main.js`) and preload script are embedded shallowly below.  The
Python backend (`backend/services/gap_analyzer.py` and friends) is not part
of the available sources; where a claim depends on it, the relevant
definition is modelled from the specification and says so in its doc
comment.
-/

namespace GapFiller

/-- Discrete gap level, the four buckets of the classifier
(`complete_gap`, `severe_gap`, `moderate_gap`, `studied`). -/
inductive GapLevel where
  | complete_gap
  | severe_gap
  | moderate_gap
  | studied
  deriving DecidableEq, Repr

/-- Modelled from the spec: the backend Gap Classifier
(`backend/services/gap_analyzer.py`) is not among the available sources.
Spec §4.4 fixes the thresholds on `target_publications`:
0 → complete_gap, 1–3 → severe_gap, 4–10 → moderate_gap, >10 → studied.
Publication counts are natural numbers.  The source-publication count is
taken but, per the spec, the level depends only on the target count. -/
def classify (sourcePubs targetPubs : Nat) : GapLevel :=
  if targetPubs = 0 then .complete_gap
  else if targetPubs ≤ 3 then .severe_gap
  else if targetPubs ≤ 10 then .moderate_gap
  else .studied

/-- Embeds `formatGapLevel` (frontend `app.js`): maps the gap-level tag
to its display string, falling through to the tag itself on an unknown
level. -/
def formatGapLevel (level : String) : String :=
  if level = "complete_gap" then "🔴 No publications"
  else if level = "severe_gap" then "🟠 1-3 publications"
  else if level = "moderate_gap" then "🟡 4-10 publications"
  else if level = "studied" then "🟢 Well studied"
  else level

/-- One saved search, as built by `addToSearchHistory` (frontend `app.js`). -/
structure HistoryItem where
  query : String
  sourceSpecies : String
  targetSpecies : List String
  resultsCount : Nat
  timestamp : String
  id : Nat
  deriving DecidableEq, Repr

/-- Constant `MAX_HISTORY_ITEMS` from frontend `app.js`. -/
def MAX_HISTORY_ITEMS : Nat := 10

/-- Embeds `addToSearchHistory` (frontend `app.js`): the new item is
unshifted onto the front of the history, and the list is cut back to
`MAX_HISTORY_ITEMS` entries when it exceeds that bound. -/
def addToSearchHistory (item : HistoryItem) (history : List HistoryItem) :
    List HistoryItem :=
  let h := item :: history
  if h.length > MAX_HISTORY_ITEMS then h.take MAX_HISTORY_ITEMS else h

/-- Embeds `clearSearchHistory` (frontend `app.js`): the history becomes
empty. -/
def clearSearchHistory : List HistoryItem := []

/-- Embeds JavaScript `String.prototype.trim`: leading and trailing
whitespace characters are removed (whitespace modelled by
`Char.isWhitespace`). -/
def jsTrim (s : String) : String :=
  ⟨((s.data.dropWhile Char.isWhitespace).reverse.dropWhile
      Char.isWhitespace).reverse⟩

/-- Body of the `POST /analyze` request built by `analyzeGaps`
(frontend `app.js`). -/
structure AnalyzeBody where
  query : String
  source_species : String
  target_species : List String
  max_articles : Nat
  model : Option String
  deriving DecidableEq, Repr

/-- Embeds the request body constructed by `analyzeGaps` (frontend
`app.js`): the `model` field is `model || null`, i.e. `null` exactly when
the passed model string is empty. -/
def analyzeGapsBody (query sourceSpecies : String) (targetSpecies : List String)
    (maxArticles : Nat) (model : String) : AnalyzeBody :=
  { query := query
    source_species := sourceSpecies
    target_species := targetSpecies
    max_articles := maxArticles
    model := if model = "" then none else some model }

/-- Outcome of one `handleSearch` invocation: either a validation alert is
shown and the handler returns, or a single `/analyze` request is issued
with the given body. -/
inductive SearchOutcome where
  | validationError (message : String)
  | analyzeRequest (body : AnalyzeBody)
  deriving DecidableEq, Repr

/-- Embeds `parseInt(maxArticlesField) || 20` from `handleSearch`: a failed
parse (`none`) or a parsed `0` (falsy in JavaScript) both fall back
to 20. -/
def parseMaxArticles : Option Nat → Nat
  | none => 20
  | some 0 => 20
  | some (n + 1) => n + 1

/-- Embeds `handleSearch` (frontend `app.js`): the query is trimmed on
read; an empty trimmed query or an empty set of checked target species
aborts with an alert before `analyzeGaps` is called; otherwise exactly one
`/analyze` request is issued. -/
def handleSearch (rawQuery sourceSpecies : String) (targetSpecies : List String)
    (maxArticlesRaw : Option Nat) (model : String) : SearchOutcome :=
  let query := jsTrim rawQuery
  if query = "" then
    .validationError "Please enter a search query"
  else if targetSpecies = [] then
    .validationError "Please select at least one target species"
  else
    .analyzeRequest
      (analyzeGapsBody query sourceSpecies targetSpecies
        (parseMaxArticles maxArticlesRaw) model)

/-- Outcome of a `fetch` call as seen by the surrounding `try`: either the
promise rejects (network error), or a response arrives with an `ok` flag
and a parsed JSON body. -/
inductive FetchResult (α : Type) where
  | netError (message : String)
  | response (ok : Bool) (body : α)
  deriving DecidableEq, Repr

/-- A fetch attempt that failed: the promise rejected or the response was
not `ok`. -/
def FetchResult.failed : FetchResult α → Prop
  | .netError _ => True
  | .response ok _ => ok = false

/-- Shape of the `/go-terms` JSON payload used by the frontend. -/
structure GOTermsResult where
  success : Bool
  molecular_function : List String
  biological_process : List String
  cellular_component : List String
  pathways : List String
  deriving DecidableEq, Repr

/-- Embeds `fetchGOTerms` (frontend `app.js`): a non-`ok` response throws
inside the `try` and, like a network error, is caught and converted into
`{ success: false }` with empty term lists; an `ok` response is returned
as parsed. -/
def fetchGOTerms (r : FetchResult GOTermsResult) : GOTermsResult :=
  match r with
  | .response true body => body
  | .response false _ => ⟨false, [], [], [], []⟩
  | .netError _ => ⟨false, [], [], [], []⟩

/-- Shape of the `/ortholog` JSON payload used by the frontend. -/
structure OrthologResult where
  success : Bool
  ortholog_found : Bool
  error : Option String
  deriving DecidableEq, Repr

/-- Embeds `fetchOrthologInfo` (frontend `app.js`): a non-`ok` response
throws `Failed to fetch ortholog info` inside the `try`; that error and any
network error are caught and converted into
`{ success: false, ortholog_found: false, error: message }`. -/
def fetchOrthologInfo (r : FetchResult OrthologResult) : OrthologResult :=
  match r with
  | .response true body => body
  | .response false _ => ⟨false, false, some "Failed to fetch ortholog info"⟩
  | .netError msg => ⟨false, false, some msg⟩

/-- Browser `localStorage`, modelled as a map from keys to optionally
present string values. -/
def Store : Type := String → Option String

/-- Embeds `localStorage.setItem`. -/
def setItem (s : Store) (key value : String) : Store :=
  fun k => if k = key then some value else s k

/-- Embeds `localStorage.removeItem`. -/
def removeItem (s : Store) (key : String) : Store :=
  fun k => if k = key then none else s k

/-- Embeds `localStorage.getItem` (absent keys read as `null`). -/
def getItem (s : Store) (key : String) : Option String :=
  s key

/-- The note key built by `getGeneNotes`/`saveGeneNote` (frontend
`app.js`). -/
def noteKey (gene species : String) : String :=
  "gap-filler-note-" ++ gene ++ "-" ++ species

/-- Embeds `getGeneNotes` (frontend `app.js`):
`localStorage.getItem(key) || ''`. -/
def getGeneNotes (gene species : String) (s : Store) : String :=
  (getItem s (noteKey gene species)).getD ""

/-- Embeds `saveGeneNote` (frontend `app.js`): a note whose trim is truthy
(nonempty) is stored under the note key, otherwise the stored entry is
removed. -/
def saveGeneNote (gene species note : String) (s : Store) : Store :=
  if jsTrim note ≠ "" then setItem s (noteKey gene species) note
  else removeItem s (noteKey gene species)

/-- One entry of the Ollama `/api/tags` model list. -/
structure OllamaModel where
  name : String
  deriving DecidableEq, Repr

/-- Embeds JavaScript `String.prototype.includes`: `sub` occurs as a
contiguous substring of `s`. -/
def jsIncludes (s sub : String) : Bool :=
  (List.range (s.data.length + 1)).any fun i => sub.data.isPrefixOf (s.data.drop i)

/-- Embeds `checkModel` (desktop `main.js`): fetches the Ollama tags
endpoint; on an `ok` response it tests whether some installed model's name
contains `modelName.split(':')[0]`; a non-`ok` response falls through to
`return false`, and any thrown fetch error is caught and returns
`false`. -/
def checkModel (modelName : String) (r : FetchResult (List OllamaModel)) : Bool :=
  match r with
  | .response true models =>
      models.any fun m => jsIncludes m.name ((modelName.splitOn ":").headD "")
  | .response false _ => false
  | .netError _ => false

/-- One extracted gene as rendered by the frontend (`genes_found`
entries). -/
structure GeneCandidate where
  name : String
  symbol : Option String
  mentions : Nat
  deriving DecidableEq, Repr

/-- One `missing_genes` entry of a `gaps` element of the `/analyze`
payload. -/
structure MissingGene where
  gene : String
  gap_level : String
  source_publications : Nat
  target_publications : Nat
  priority_score : ℚ
  deriving DecidableEq, Repr

/-- One `gaps` entry of the `/analyze` payload (per-species gap
summary). -/
structure SpeciesGap where
  species : String
  common_name : String
  gap_count : Nat
  complete_gaps : Nat
  severe_gaps : Nat
  missing_genes : List MissingGene
  deriving DecidableEq, Repr

/-- Run statistics of the `/analyze` payload. -/
structure RunStatistics where
  total_gaps : Nat
  species_with_gaps : Nat
  deriving DecidableEq, Repr

/-- The JSON object held in `state.analysisResults` after `showResults`
stores the raw `/analyze` response.  JavaScript objects are open, so keys
whose presence varies are modelled as `Option`:  `query`,
`source_species`, `genes` and `summaries` are read by the frontend with
falsy fallbacks but are not among the payload's documented keys. -/
structure StoredAnalysis where
  articles_analyzed : Nat
  genes_found : List GeneCandidate
  gene_summaries : List (String × String)
  gaps : List SpeciesGap
  statistics : RunStatistics
  query : Option String
  source_species : Option String
  genes : Option (List GeneCandidate)
  summaries : Option (List String)
  deriving DecidableEq, Repr

/-- Modelled from the spec: the backend `/analyze` handler
(`backend/app.py`, not among the available sources) returns, per §6,
exactly `{articles_analyzed, genes_found[], gene_summaries{gene:text},
gaps[], statistics{}}` — the payload has no `query`, `source_species`,
`genes` or `summaries` keys, so those read as `undefined` on the stored
object. -/
def mkAnalyzeResponse (articles : Nat) (genesFound : List GeneCandidate)
    (geneSummaries : List (String × String)) (gaps : List SpeciesGap)
    (stats : RunStatistics) : StoredAnalysis :=
  { articles_analyzed := articles
    genes_found := genesFound
    gene_summaries := geneSummaries
    gaps := gaps
    statistics := stats
    query := none
    source_species := none
    genes := none
    summaries := none }

/-- Embeds the JavaScript string fallback `v || fallback`: an absent key
or an empty string both select the fallback. -/
def jsOrString (v : Option String) (fallback : String) : String :=
  match v with
  | none => fallback
  | some s => if s = "" then fallback else s

/-- Body of the `POST /export/pdf` request built by
`generatePDFWithSelection` (frontend `app.js`). -/
structure ExportBody where
  query : String
  source_species : String
  target_species : List String
  gaps : List SpeciesGap
  genes : List GeneCandidate
  summaries : List String
  deriving DecidableEq, Repr

/-- Outcome of `generatePDFWithSelection`: an alert with no request, or a
single `/export/pdf` request. -/
inductive ExportOutcome where
  | aborted (message : String)
  | request (body : ExportBody)
  deriving DecidableEq, Repr

/-- Embeds `generatePDFWithSelection` (frontend `app.js`): with no
organism selected it alerts and returns; otherwise it posts to
`/export/pdf` the stored gaps filtered to the selected organisms, and the
values of the stored object's `genes` and `summaries` keys with `|| []`
fallbacks. -/
def generatePDFWithSelection (selectedOrgs : List String)
    (stored : StoredAnalysis) (searchInputValue sourceSelectValue : String) :
    ExportOutcome :=
  if selectedOrgs = [] then
    .aborted "Please select at least one organism to export."
  else
    .request
      { query := jsOrString stored.query searchInputValue
        source_species := sourceSelectValue
        target_species := selectedOrgs
        gaps := stored.gaps.filter fun g => selectedOrgs.contains g.species
        genes := stored.genes.getD []
        summaries := stored.summaries.getD [] }

/-- A concrete `/analyze` response with one extracted gene, one summary
and one wheat gap, stored as `state.analysisResults`. -/
def sampleAnalysis : StoredAnalysis :=
  mkAnalyzeResponse 20
    [⟨"DREB2A", some "DREB2A", 12⟩]
    [("DREB2A", "Drought-responsive transcription factor.")]
    [⟨"Triticum aestivum", "wheat", 1, 1, 0,
      [⟨"DREB2A", "complete_gap", 45, 0, 87⟩]⟩]
    ⟨1, 1⟩

/-- Modelled from the spec: the backend Gap Scorer
(`backend/services/gap_analyzer.py`) is not among the available sources.
Spec §4.4 gives `score = source_publications_log_weighted ×
mention_count_weight × (1 / (target_publications + 1))`, clipped to a
fixed display range; the exact constants are tunables.  Log-weighting is
modelled by `Nat.log 2 (sourcePubs + 1) + 1`, mention weighting by
`mentions + 1`, and the display clip by an upper bound of 100. -/
def score (sourcePubs targetPubs mentions : Nat) : ℚ :=
  min 100
    (((Nat.log 2 (sourcePubs + 1) + 1) * (mentions + 1) : ℚ) / (targetPubs + 1))

/-- A gap record as ranked by the scorer. -/
structure GapRecord where
  gene : String
  source_publications : Nat
  target_publications : Nat
  mentions : Nat
  deriving DecidableEq, Repr

/-- Priority score of a gap record. -/
def priorityScore (r : GapRecord) : ℚ :=
  score r.source_publications r.target_publications r.mentions

/-- Modelled from the spec: the ranking order of the backend scorer (not
among the available sources) — record `a` precedes record `b` iff its
score is higher, with ties broken by gene name for determinism. -/
def rankBefore (a b : GapRecord) : Prop :=
  priorityScore b < priorityScore a ∨
    (priorityScore a = priorityScore b ∧ a.gene < b.gene)

/-- Outcome of the Publication Cross-Referencer for one target species:
either the per-species gap records, or a failed lookup. -/
inductive CrossRefOutcome where
  | ok (records : List GapRecord)
  | failed
  deriving DecidableEq, Repr

/-- Aggregated result for one target species, with the status flag that
distinguishes a failed lookup from a genuine zero-gap outcome. -/
structure SpeciesGapSummary where
  species : String
  records : List GapRecord
  lookup_failed : Bool
  deriving DecidableEq, Repr

/-- Modelled from the spec: the per-target-species fan-out of the
Publication Cross-Referencer and its aggregation
(`backend/services/gap_analyzer.py`, not among the available sources).
Per §7/§8, the result holds one `SpeciesGapSummary` per requested target
species, order-preserving; a species whose lookup failed is present with
zero gaps and a distinguishable status flag rather than being omitted. -/
def aggregateSummaries (targets : List String)
    (outcome : String → CrossRefOutcome) : List SpeciesGapSummary :=
  targets.map fun sp =>
    match outcome sp with
    | .ok rs => ⟨sp, rs, false⟩
    | .failed => ⟨sp, [], true⟩

end GapFiller

namespace GapFiller

/-- C1: classification is a pure function of `target_publications` with the
fixed thresholds 0 / 1–3 / 4–10 / >10, and the frontend's `formatGapLevel`
renders exactly those four buckets with those publication ranges. -/
theorem classify_buckets_and_formatGapLevel (s t : Nat) :
    (classify s t = .complete_gap ↔ t = 0) ∧
    (classify s t = .severe_gap ↔ 1 ≤ t ∧ t ≤ 3) ∧
    (classify s t = .moderate_gap ↔ 4 ≤ t ∧ t ≤ 10) ∧
    (classify s t = .studied ↔ t > 10) ∧
    formatGapLevel "complete_gap" = "🔴 No publications" ∧
    formatGapLevel "severe_gap" = "🟠 1-3 publications" ∧
    formatGapLevel "moderate_gap" = "🟡 4-10 publications" ∧
    formatGapLevel "studied" = "🟢 Well studied" := by
  refine ⟨?_, ?_, ?_, ?_, rfl, rfl, rfl, rfl⟩ <;>
    unfold classify <;> split_ifs <;> simp_all <;> omega

/-- C8: after every `addToSearchHistory` the history holds at most
`MAX_HISTORY_ITEMS` (= 10) entries and its first entry is the item just
added; `clearSearchHistory`, the only other mutation of the history,
also keeps the bound. -/
theorem searchHistory_bounded_newest_first (item : HistoryItem)
    (history : List HistoryItem) :
    (addToSearchHistory item history).length ≤ MAX_HISTORY_ITEMS ∧
    (addToSearchHistory item history).head? = some item ∧
    clearSearchHistory.length ≤ MAX_HISTORY_ITEMS := by
  unfold addToSearchHistory clearSearchHistory MAX_HISTORY_ITEMS
  simp only []
  split_ifs with h
  · refine ⟨?_, ?_, by simp⟩
    · simpa using List.length_take_le 10 (item :: history)
    · simp [List.take_succ_cons]
  · exact ⟨by omega, rfl, by simp⟩

/-- C2: whenever the trimmed query is empty or no target species is
checked, `handleSearch` returns a descriptive validation error and no
`/analyze` request is issued. -/
theorem handleSearch_rejects_invalid (rawQuery sourceSpecies : String)
    (targetSpecies : List String) (maxArticlesRaw : Option Nat)
    (model : String)
    (h : jsTrim rawQuery = "" ∨ targetSpecies = []) :
    handleSearch rawQuery sourceSpecies targetSpecies maxArticlesRaw model =
        .validationError "Please enter a search query" ∨
      handleSearch rawQuery sourceSpecies targetSpecies maxArticlesRaw model =
        .validationError "Please select at least one target species" := by
  unfold handleSearch
  by_cases hq : jsTrim rawQuery = ""
  · simp [hq]
  · rcases h with h | h
    · exact absurd h hq
    · simp [hq, h]

/-- Witness for C2: a whitespace-only query is rejected. -/
theorem handleSearch_rejects_invalid_witness :
    handleSearch "   " "Arabidopsis thaliana" ["Triticum aestivum"]
        (some 20) "llama3" =
        .validationError "Please enter a search query" ∨
      handleSearch "   " "Arabidopsis thaliana" ["Triticum aestivum"]
        (some 20) "llama3" =
        .validationError "Please select at least one target species" :=
  handleSearch_rejects_invalid "   " "Arabidopsis thaliana"
    ["Triticum aestivum"] (some 20) "llama3" (Or.inl (by decide))

/-- C7: every `/analyze` request issued by `handleSearch` carries the
currently selected model identifier in its body's `model` field (when a
model is selected, i.e. the select value is nonempty); model choice is a
per-call body parameter, not ambient state. -/
theorem handleSearch_carries_model (rawQuery sourceSpecies : String)
    (targetSpecies : List String) (maxArticlesRaw : Option Nat)
    (model : String)
    (hq : jsTrim rawQuery ≠ "") (ht : targetSpecies ≠ [])
    (hm : model ≠ "") :
    handleSearch rawQuery sourceSpecies targetSpecies maxArticlesRaw model =
      .analyzeRequest
        { query := jsTrim rawQuery
          source_species := sourceSpecies
          target_species := targetSpecies
          max_articles := parseMaxArticles maxArticlesRaw
          model := some model } := by
  unfold handleSearch analyzeGapsBody
  simp [hq, ht, hm]

/-- Witness for C7: a concrete search issues an `/analyze` request whose
body names the selected model. -/
theorem handleSearch_carries_model_witness :
    handleSearch " drought stress " "Arabidopsis thaliana"
        ["Triticum aestivum", "Oryza sativa"] (some 20) "llama3" =
      .analyzeRequest
        { query := jsTrim " drought stress "
          source_species := "Arabidopsis thaliana"
          target_species := ["Triticum aestivum", "Oryza sativa"]
          max_articles := parseMaxArticles (some 20)
          model := some "llama3" } :=
  handleSearch_carries_model " drought stress " "Arabidopsis thaliana"
    ["Triticum aestivum", "Oryza sativa"] (some 20) "llama3"
    (by decide) (by decide) (by decide)

/-- C4: a failed GO-term or ortholog lookup (network error or non-`ok`
HTTP status) yields a tagged unavailable result with `success = false` and
empty/default fields; both embedded functions are total, so no exception
reaches the caller. -/
theorem enrichment_failures_are_tagged (r₁ : FetchResult GOTermsResult)
    (r₂ : FetchResult OrthologResult)
    (h₁ : r₁.failed) (h₂ : r₂.failed) :
    fetchGOTerms r₁ = ⟨false, [], [], [], []⟩ ∧
    (fetchOrthologInfo r₂).success = false ∧
    (fetchOrthologInfo r₂).ortholog_found = false := by
  refine ⟨?_, ?_, ?_⟩ <;>
    [cases r₁; cases r₂; cases r₂] <;>
    simp_all [FetchResult.failed, fetchGOTerms, fetchOrthologInfo]

/-- Witness for C4: a rejected GO-terms fetch and a non-`ok` ortholog
response both come back tagged unavailable. -/
theorem enrichment_failures_are_tagged_witness :
    FetchResult.failed (α := GOTermsResult) (.netError "connection refused") ∧
    FetchResult.failed (α := OrthologResult)
      (.response false ⟨true, true, none⟩) ∧
    (fetchGOTerms (.netError "connection refused") = ⟨false, [], [], [], []⟩ ∧
     (fetchOrthologInfo (.response false ⟨true, true, none⟩)).success = false ∧
     (fetchOrthologInfo
        (.response false ⟨true, true, none⟩)).ortholog_found = false) :=
  ⟨trivial, rfl,
    enrichment_failures_are_tagged (.netError "connection refused")
      (.response false ⟨true, true, none⟩) trivial rfl⟩

/-- Helper: the trim of a string is empty exactly when every character of
the string is whitespace. -/
theorem jsTrim_eq_empty_iff (s : String) :
    jsTrim s = "" ↔ ∀ c ∈ s.data, c.isWhitespace := by
  unfold jsTrim
  constructor
  · intro h c hc
    have hdata : ((s.data.dropWhile Char.isWhitespace).reverse.dropWhile
        Char.isWhitespace).reverse = [] := congrArg String.data h
    rw [List.reverse_eq_nil_iff, List.dropWhile_eq_nil_iff] at hdata
    have hdrop : ∀ x ∈ s.data.dropWhile Char.isWhitespace,
        Char.isWhitespace x := fun x hx => hdata x (List.mem_reverse.2 hx)
    rw [← List.takeWhile_append_dropWhile (p := Char.isWhitespace)
      (l := s.data)] at hc
    rcases List.mem_append.1 hc with h1 | h2
    · exact List.mem_takeWhile_imp h1
    · exact hdrop c h2
  · intro h
    rw [show s.data.dropWhile Char.isWhitespace = [] from
      List.dropWhile_eq_nil_iff.2 h]
    rfl

/-- C9: after `saveGeneNote`, `getGeneNotes` on the same gene and species
returns the note when it contains a non-whitespace character; an empty or
whitespace-only note removes the stored entry and reads back as the empty
string. -/
theorem geneNote_roundtrip (gene species note : String) (s : Store) :
    getItem (saveGeneNote gene species note s) (noteKey gene species) =
      (if note.data.any (fun c => !c.isWhitespace) then some note else none) ∧
    getGeneNotes gene species (saveGeneNote gene species note s) =
      (if note.data.any (fun c => !c.isWhitespace) then note else "") := by
  cases hb : note.data.any (fun c => !c.isWhitespace) with
  | false =>
    have hall : ∀ c ∈ note.data, c.isWhitespace := by
      intro c hc
      have := List.any_eq_false.1 hb c hc
      simpa using this
    have htrim : jsTrim note = "" := (jsTrim_eq_empty_iff note).2 hall
    simp [saveGeneNote, htrim, getGeneNotes, getItem, removeItem]
  | true =>
    have htrim : jsTrim note ≠ "" := by
      intro h
      rcases List.any_eq_true.1 hb with ⟨c, hc, hnc⟩
      have := (jsTrim_eq_empty_iff note).1 h c hc
      simp [this] at hnc
    simp [saveGeneNote, htrim, getGeneNotes, getItem, setItem]

/-- C10: `checkModel` returns `true` iff the tags endpoint responded `ok`
and some installed model's name contains the part of `modelName` before
the first colon, and returns `false` on any fetch failure. -/
theorem checkModel_matches_base_name (modelName message : String)
    (ok : Bool) (models : List OllamaModel) :
    checkModel modelName (.netError message) = false ∧
    (checkModel modelName (.response ok models) = true ↔
      ok = true ∧ ∃ m ∈ models,
        jsIncludes m.name ((modelName.splitOn ":").headD "") = true) := by
  refine ⟨rfl, ?_⟩
  cases ok <;> simp [checkModel, List.any_eq_true]

/-- C3 (code slip): for a stored `/analyze` response shaped as the spec
documents, a PDF export with one organism selected posts the correctly
filtered `gaps` but empty `genes` and `summaries`, because the code reads
the nonexistent `genes`/`summaries` keys instead of `genes_found` and
`gene_summaries`, which are nonempty here. -/
theorem exportPDF_posts_empty_gene_list :
    generatePDFWithSelection ["Triticum aestivum"] sampleAnalysis
        "drought stress signaling" "Arabidopsis thaliana" =
      .request
        { query := "drought stress signaling"
          source_species := "Arabidopsis thaliana"
          target_species := ["Triticum aestivum"]
          gaps := sampleAnalysis.gaps
          genes := []
          summaries := [] } ∧
    sampleAnalysis.genes_found = [⟨"DREB2A", some "DREB2A", 12⟩] ∧
    sampleAnalysis.gene_summaries ≠ [] := by
  refine ⟨rfl, rfl, by decide⟩

/-- C5: the priority score never decreases when source publications grow
(target fixed), never increases when target publications grow (source
fixed), and records with equal scores are ordered deterministically by
gene name. -/
theorem score_monotone_ties_by_name (s s' t t' m : Nat) (a b : GapRecord)
    (hs : s ≤ s') (ht : t ≤ t')
    (hab : priorityScore a = priorityScore b) :
    score s t m ≤ score s' t m ∧
    score s t' m ≤ score s t m ∧
    (rankBefore a b ↔ a.gene < b.gene) := by
  have hlog : Nat.log 2 (s + 1) ≤ Nat.log 2 (s' + 1) :=
    Nat.log_mono_right (by omega)
  refine ⟨?_, ?_, ?_⟩
  · unfold score
    gcongr
  · unfold score
    gcongr
  · unfold rankBefore
    rw [hab]
    simp [lt_irrefl]

/-- Witness for C5: concrete monotonicity instances and a concrete
equal-score tie ordered by gene name. -/
theorem score_monotone_ties_by_name_witness :
    score 2 5 3 ≤ score 4 5 3 ∧
    score 2 7 3 ≤ score 2 5 3 ∧
    (rankBefore ⟨"ABC1", 5, 2, 3⟩ ⟨"XYZ9", 5, 2, 3⟩ ↔
      ("ABC1" : String) < "XYZ9") :=
  score_monotone_ties_by_name 2 4 5 7 3 ⟨"ABC1", 5, 2, 3⟩ ⟨"XYZ9", 5, 2, 3⟩
    (by decide) (by decide) rfl

/-- C6: when the cross-referencer fails for exactly one of three target
species, the result still holds one summary per species in order: the two
successful species keep their records, and the failed one is present with
zero gaps and its failure flag set. -/
theorem crossref_failure_contained (a b c : String) (ra rc : List GapRecord)
    (f : String → CrossRefOutcome)
    (ha : f a = .ok ra) (hb : f b = .failed) (hc : f c = .ok rc) :
    aggregateSummaries [a, b, c] f =
      [⟨a, ra, false⟩, ⟨b, [], true⟩, ⟨c, rc, false⟩] := by
  simp [aggregateSummaries, ha, hb, hc]

/-- Witness for C6: a concrete three-species run where only the rice
lookup fails. -/
theorem crossref_failure_contained_witness :
    aggregateSummaries ["Triticum aestivum", "Oryza sativa", "Zea mays"]
        (fun sp => if sp = "Oryza sativa" then .failed else .ok []) =
      [⟨"Triticum aestivum", [], false⟩, ⟨"Oryza sativa", [], true⟩,
        ⟨"Zea mays", [], false⟩] :=
  crossref_failure_contained "Triticum aestivum" "Oryza sativa" "Zea mays"
    [] [] _ (by decide) (by decide) (by decide)

end GapFiller
